import Mathlib

/-!
# Verification of the actions-on-google conversation SDK (typings repository)

A shallow embedding of the conversation turn-handling engine described by the
specification of the repository and its TypeScript declaration files
(`src/ts/typings/assistant-app.d.ts`, `src/ts/typings/actions-sdk-app.d.ts`).
The repository ships only declarations (signatures plus doc comments); the
implementations of the dispatcher, the response builders and the envelope
serializer are not under `src/`.  Each such operation is therefore modelled
from the specification (and, where the doc comment of a declaration states the
contract, from that doc comment), as noted in the doc string of each definition.
-/

/-- A JSON value, as round-tripped by the SDK.  Dialog state, request bodies
and serialized envelopes are all values of this type. -/
inductive Json where
  | null : Json
  | bool (b : Bool) : Json
  | num (n : Int) : Json
  | str (s : String) : Json
  | arr (items : List Json) : Json
  | obj (fields : List (String × Json)) : Json
deriving Repr

/-- Structural field lookup on a JSON object; `none` on non-objects and
missing keys (models JavaScript `undefined`). -/
def Json.getField : Json → String → Option Json
  | .obj fields, key => fields.lookup key
  | _, _ => none

/-- Extracts the payload of a JSON string; `none` otherwise. -/
def Json.asString : Json → Option String
  | .str s => some s
  | _ => none

mutual

/-- Renders a JSON value to its byte representation (the
"byte-for-byte" round-trip of the spec is stated on this rendering). -/
def Json.render : Json → String
  | .null => "null"
  | .bool true => "true"
  | .bool false => "false"
  | .num n => toString n
  | .str s => "\"" ++ s ++ "\""
  | .arr items => "[" ++ Json.renderItems items ++ "]"
  | .obj fields => "\x7b" ++ Json.renderFields fields ++ "\x7d"

/-- Renders the comma-separated elements of a JSON array. -/
def Json.renderItems : List Json → String
  | [] => ""
  | [j] => Json.render j
  | j :: rest => Json.render j ++ "," ++ Json.renderItems rest

/-- Renders the comma-separated members of a JSON object. -/
def Json.renderFields : List (String × Json) → String
  | [] => ""
  | [(k, j)] => "\"" ++ k ++ "\":" ++ Json.render j
  | (k, j) :: rest => "\"" ++ k ++ "\":" ++ Json.render j ++ "," ++ Json.renderFields rest

end

/-- The two supported conversation API versions (`assistant-app.d.ts` and the
spec §4.1: a legacy proto2-style snake_case shape V1 and a current camelCase
shape V2). -/
inductive ApiVersion where
  | V1 : ApiVersion
  | V2 : ApiVersion
deriving DecidableEq, Repr

/-- The error kinds of spec §7. -/
inductive ErrorKind where
  | MalformedRequest : ErrorKind
  | UnhandledIntent : ErrorKind
  | InvalidResponseShape (field : String) : ErrorKind
  | HandlerFailed : ErrorKind
deriving DecidableEq, Repr

namespace StandardIntents

/-- `actions.intent.MAIN` (assistant-app.d.ts, StandardIntents). -/
def MAIN : String := "actions.intent.MAIN"

/-- `actions.intent.TEXT` (assistant-app.d.ts, StandardIntents). -/
def TEXT : String := "actions.intent.TEXT"

/-- `actions.intent.PERMISSION` (assistant-app.d.ts, StandardIntents). -/
def PERMISSION : String := "actions.intent.PERMISSION"

/-- `actions.intent.OPTION` (assistant-app.d.ts, StandardIntents). -/
def OPTION : String := "actions.intent.OPTION"

end StandardIntents

namespace SupportedPermissions

/-- `NAME` (assistant-app.d.ts, SupportedPermissions). -/
def NAME : String := "NAME"

/-- `DEVICE_PRECISE_LOCATION` (assistant-app.d.ts, SupportedPermissions). -/
def DEVICE_PRECISE_LOCATION : String := "DEVICE_PRECISE_LOCATION"

/-- `DEVICE_COARSE_LOCATION` (assistant-app.d.ts, SupportedPermissions). -/
def DEVICE_COARSE_LOCATION : String := "DEVICE_COARSE_LOCATION"

end SupportedPermissions

namespace BuiltInArgNames

/-- `OPTION` (assistant-app.d.ts, BuiltInArgNames): the option-selected
argument name. -/
def OPTION : String := "OPTION"

end BuiltInArgNames

/-- Whether a permission string is one of the three `SupportedPermissions`
values declared in assistant-app.d.ts. -/
def isSupportedPermission (p : String) : Bool :=
  p = SupportedPermissions.NAME ||
  p = SupportedPermissions.DEVICE_PRECISE_LOCATION ||
  p = SupportedPermissions.DEVICE_COARSE_LOCATION

/-- Modelled from the spec (§3 Data Model): the spec requires `intentId` to
always be present, with a distinct sentinel for an absent/unknown intent
("absent/unknown intent is a distinct sentinel, never an exception"); the
implementation holding the concrete sentinel value is not under `src/`. -/
def unknownIntent : String := "UNKNOWN_INTENT"

/-- Modelled from the spec (§3 Data Model): the canonical `Turn` extracted by
the Request Normalizer; the normalizer implementation is not under `src/`.
`Option` models the `null` defaults documented for the accessors in
actions-sdk-app.d.ts. -/
structure Turn where
  intentId : String
  rawInput : Option String
  arguments : List (String × Json)
  dialogState : Json
  conversationId : Option String
  apiVersion : ApiVersion
deriving Repr

/-- Version-dependent name of the request/response field carrying the opaque
dialog state blob (spec §4.4: field names differ between V1 and V2; V1 is
snake_case, V2 camelCase). -/
def dialogStateField : ApiVersion → String
  | .V1 => "conversation_token"
  | .V2 => "conversationToken"

/-- Version-dependent name of the conversation-id field. -/
def conversationIdField : ApiVersion → String
  | .V1 => "conversation_id"
  | .V2 => "conversationId"

/-- Version-dependent name of the raw-user-input field. -/
def rawInputField : ApiVersion → String
  | .V1 => "raw_input"
  | .V2 => "rawInput"

/-- Version-dependent name of the expect-user-response flag. -/
def expectUserResponseField : ApiVersion → String
  | .V1 => "expect_user_response"
  | .V2 => "expectUserResponse"

/-- Parses the `arguments` member of a request body into the argument
mapping of the `Turn`: each array element contributes its `name` field mapped to
its `value` field.  Absent or non-array input yields the empty mapping
(spec §4.1: unknown/missing fields resolve to empty-set defaults). -/
def parseArguments : Option Json → List (String × Json)
  | some (.arr items) =>
      items.filterMap fun item =>
        match item.getField "name" with
        | some (.str n) => some (n, (item.getField "value").getD Json.null)
        | _ => none
  | _ => []

namespace RequestNormalizer

/-- Modelled from the spec (§4.1 Request Normalizer, whose implementation is
not under `src/`): `normalize(rawBody, apiVersion) -> Turn`.  Unknown/missing
fields resolve to `null`/empty defaults; fails with `MalformedRequest` only
when the body lacks a minimally valid envelope (no conversation id and no
intent at all).  The dialog state defaults to `{}` when absent, per the
`getDialogState` doc in actions-sdk-app.d.ts. -/
def normalize (body : Json) (v : ApiVersion) : Except ErrorKind Turn :=
  let conversationId := (body.getField (conversationIdField v)).bind Json.asString
  let intent := (body.getField "intent").bind Json.asString
  if conversationId = none ∧ intent = none then
    .error .MalformedRequest
  else
    .ok {
      intentId := intent.getD unknownIntent
      rawInput := (body.getField (rawInputField v)).bind Json.asString
      arguments := parseArguments (body.getField "arguments")
      dialogState := (body.getField (dialogStateField v)).getD (Json.obj [])
      conversationId := conversationId
      apiVersion := v
    }

end RequestNormalizer

namespace ActionsSdkApp

/-- `ActionsSdkApp.getRawInput` (actions-sdk-app.d.ts): the raw user query,
or null if no value. -/
def getRawInput (t : Turn) : Option String := t.rawInput

/-- `ActionsSdkApp.getConversationId` (actions-sdk-app.d.ts): the unique
conversation ID, or null if no value. -/
def getConversationId (t : Turn) : Option String := t.conversationId

/-- `ActionsSdkApp.getDialogState` (actions-sdk-app.d.ts): the previous JSON
dialog state, or `{}` if no value. -/
def getDialogState (t : Turn) : Json := t.dialogState

/-- `ActionsSdkApp.getArgument` (actions-sdk-app.d.ts): the argument value by
name from the current intent, or null if no matching argument. -/
def getArgument (t : Turn) (argName : String) : Option Json :=
  t.arguments.lookup argName

/-- `ActionsSdkApp.getSelectedOption` (actions-sdk-app.d.ts lines 138-168);
the implementation is not under `src/`, so this follows the declared
contract: "Option key of selected item.  Null if no option selected or if
current intent is not OPTION intent." -/
def getSelectedOption (t : Turn) : Option String :=
  if t.intentId = StandardIntents.OPTION then
    match getArgument t BuiltInArgNames.OPTION with
    | some (.str key) => some key
    | _ => none
  else
    none

end ActionsSdkApp

/-- Modelled from the spec (§4.3): the InputPrompt object produced by
`buildInputPrompt` — an initial prompt, the SSML flag, and up to three
no-input reprompts. -/
structure InputPrompt where
  isSsml : Bool
  initialPrompt : String
  noInputs : List String
deriving DecidableEq, Repr

namespace ActionsSdkApp

/-- `ActionsSdkApp.buildInputPrompt` (actions-sdk-app.d.ts lines 365-387);
the implementation is not under `src/`.  Modelled from the spec (§4.2, §4.3):
the no-input prompt count is capped at 3, and supplying more is a
construction-time validation error (`InvalidResponseShape`), not a silent
truncation. -/
def buildInputPrompt (isSsml : Bool) (initialPrompt : String)
    (noInputs : List String) : Except ErrorKind InputPrompt :=
  if noInputs.length ≥ 4 then
    .error (.InvalidResponseShape "noInputs")
  else
    .ok ⟨isSsml, initialPrompt, noInputs⟩

end ActionsSdkApp

/-- Modelled from the spec (§3 ResponseEnvelope, Glossary): the tag in a
non-final envelope telling the platform which specialized intent should be
fired on the next turn. -/
inductive ExpectedIntent where
  | permission (context : String) (permissions : List String) : ExpectedIntent
  | optionSelect : ExpectedIntent
deriving DecidableEq, Repr

/-- Modelled from the spec (§3 ResponseEnvelope): the response envelope,
discriminated by finality via `expectUserResponse`.  Non-final envelopes
carry an `InputPrompt` and optionally one expected-intent request; final
envelopes carry only a terminal spoken response. -/
structure Envelope where
  expectUserResponse : Bool
  finalSpeech : Option String
  inputPrompt : Option InputPrompt
  expectedIntent : Option ExpectedIntent
  dialogState : Json
deriving Repr

namespace ActionsSdkApp

/-- `ActionsSdkApp.tell` (actions-sdk-app.d.ts lines 328-363); the
implementation is not under `src/`.  Modelled from the spec (§4.2):
`tell(...)` marks the turn FINAL (`expectUserResponse=false`) and the final
envelope carries only the terminal speech response — no reprompts and no
expected-intent request. -/
def tell (textToSpeech : String) : Envelope :=
  { expectUserResponse := false
    finalSpeech := some textToSpeech
    inputPrompt := none
    expectedIntent := none
    dialogState := Json.obj [] }

/-- `ActionsSdkApp.ask` (actions-sdk-app.d.ts lines 170-210); the
implementation is not under `src/`.  Modelled from the spec (§4.2, §8): an
ask envelope expects a user response, carries the input prompt, and carries
no expected-intent tag. -/
def ask (inputPrompt : InputPrompt) (dialogState : Json) : Envelope :=
  { expectUserResponse := true
    finalSpeech := none
    inputPrompt := some inputPrompt
    expectedIntent := none
    dialogState := dialogState }

end ActionsSdkApp

namespace AssistantApp

/-- `AssistantApp.askForPermissions` (assistant-app.d.ts lines 339-393); the
implementation is not under `src/`.  Modelled from the declared contract,
whose `@return` doc states: "A response is sent to Assistant to ask for the
permission of the user; for any invalid input, we return null."  Invalid
input — an empty context, an empty permission array, or a permission not in
`SupportedPermissions` — therefore yields `none` (JavaScript null), not a
raised error. -/
def askForPermissions (context : String) (permissions : List String)
    (dialogState : Json) : Option Envelope :=
  if context = "" then none
  else if permissions = [] then none
  else if ¬ permissions.all isSupportedPermission then none
  else
    some
      { expectUserResponse := true
        finalSpeech := none
        inputPrompt := some ⟨false, context, []⟩
        expectedIntent := some (.permission context permissions)
        dialogState := dialogState }

/-- `AssistantApp.askForPermission` (assistant-app.d.ts lines 477-531); the
implementation is not under `src/`.  Modelled from the declared contract:
equivalent to `askForPermissions` with a single permission, returning null
for any invalid input. -/
def askForPermission (context : String) (permission : String)
    (dialogState : Json) : Option Envelope :=
  askForPermissions context [permission] dialogState

end AssistantApp

namespace EnvelopeSerializer

/-- Modelled from the spec (§4.4 Platform Envelope Serializer, whose
implementation is not under `src/`): `serialize(envelope, apiVersion)` emits
the version-specific JSON shape, with the conversation token carrying the
opaque `DialogState` verbatim and field names mapped per version. -/
def serialize (env : Envelope) (v : ApiVersion) : Json :=
  Json.obj
    ([(dialogStateField v, env.dialogState),
      (expectUserResponseField v, .bool env.expectUserResponse)]
     ++ (match env.finalSpeech with
         | some s => [("finalResponse", Json.obj [("speechResponse", .str s)])]
         | none => [])
     ++ (match env.inputPrompt with
         | some ip =>
             [("inputPrompt", Json.obj
                [("initialPrompt", .str ip.initialPrompt),
                 ("isSsml", .bool ip.isSsml),
                 ("noInputPrompts", .arr (ip.noInputs.map Json.str))])]
         | none => [])
     ++ (match env.expectedIntent with
         | some (.permission context permissions) =>
             [("expectedIntent", Json.obj
                [("intent", .str StandardIntents.PERMISSION),
                 ("context", .str context),
                 ("permissions", .arr (permissions.map Json.str))])]
         | some .optionSelect =>
             [("expectedIntent", Json.obj
                [("intent", .str StandardIntents.OPTION)])]
         | none => []))

end EnvelopeSerializer

/-- Modelled from the spec (§3, §4.3): a basic card value object; the
`response-builder` module is not under `src/`. -/
structure BasicCard where
  bodyText : String
deriving DecidableEq, Repr

/-- Modelled from the spec (§3): an option item for lists and carousels, with
a unique key, display title and voice-matching synonyms. -/
structure OptionItem where
  key : String
  title : String
  synonyms : List String
deriving DecidableEq, Repr

/-- Modelled from the spec (§3): a selection list — a title plus an ordered
sequence of option items. -/
structure SelectionList where
  title : String
  items : List OptionItem
deriving DecidableEq, Repr

/-- Modelled from the spec (§3): a carousel — an ordered sequence of option
items. -/
structure Carousel where
  items : List OptionItem
deriving DecidableEq, Repr

/-- Modelled from the spec (§3 RichResponse): one item in the ordered item
sequence of a rich response — a simple speech item or one of the structured
content items (basic card, list, carousel). -/
inductive RichItem where
  | simpleSpeech (speech : String) : RichItem
  | basicCard (card : BasicCard) : RichItem
  | listSelect (list : SelectionList) : RichItem
  | carouselSelect (carousel : Carousel) : RichItem
deriving DecidableEq, Repr

/-- Whether a rich-response item is a structured content item (basic card,
list, or carousel) rather than a speech item. -/
def RichItem.isStructured : RichItem → Bool
  | .simpleSpeech _ => false
  | .basicCard _ => true
  | .listSelect _ => true
  | .carouselSelect _ => true

/-- Modelled from the spec (§3 RichResponse): an ordered sequence of response
items plus an ordered sequence of suggestion chips. -/
structure RichResponse where
  items : List RichItem
  suggestions : List String
deriving DecidableEq, Repr

/-- The number of structured content items in a rich response. -/
def RichResponse.structuredCount (rr : RichResponse) : Nat :=
  rr.items.countP (fun item => item.isStructured)

namespace AssistantApp

/-- `AssistantApp.buildRichResponse` (assistant-app.d.ts lines 718-724); the
implementation is not under `src/`.  Modelled from the spec (§4.3): a fresh
empty draft. -/
def buildRichResponse : RichResponse := ⟨[], []⟩

end AssistantApp

namespace RichResponse

/-- Modelled from the spec (§4.3): appends a simple speech item, preserving
insertion order. -/
def addSimpleResponse (rr : RichResponse) (speech : String) : RichResponse :=
  { rr with items := rr.items ++ [.simpleSpeech speech] }

/-- Modelled from the spec (§4.3): appends a suggestion chip. -/
def addSuggestions (rr : RichResponse) (suggestion : String) : RichResponse :=
  { rr with suggestions := rr.suggestions ++ [suggestion] }

/-- Modelled from the spec (§3, §4.3): appends a structured content item,
raising `InvalidResponseShape` when the draft already holds one (at most one
structured content item per RichResponse, enforced by raising a construction
error, not silently dropping data). -/
def addStructuredItem (rr : RichResponse) (field : String) (item : RichItem) :
    Except ErrorKind RichResponse :=
  if 1 ≤ rr.structuredCount then
    .error (.InvalidResponseShape field)
  else
    .ok { rr with items := rr.items ++ [item] }

/-- Modelled from the spec (§4.3): adds a basic card, rejecting a second
structured content item. -/
def addBasicCard (rr : RichResponse) (card : BasicCard) :
    Except ErrorKind RichResponse :=
  rr.addStructuredItem "basicCard" (.basicCard card)

/-- Modelled from the spec (§4.3): adds a selection list, rejecting a second
structured content item. -/
def addListSelect (rr : RichResponse) (list : SelectionList) :
    Except ErrorKind RichResponse :=
  rr.addStructuredItem "listSelect" (.listSelect list)

/-- Modelled from the spec (§4.3): adds a carousel, rejecting a second
structured content item. -/
def addCarouselSelect (rr : RichResponse) (carousel : Carousel) :
    Except ErrorKind RichResponse :=
  rr.addStructuredItem "carouselSelect" (.carouselSelect carousel)

/-- The rich responses reachable through the builder API: the empty draft,
and everything obtained from a reachable draft by a speech item, a suggestion
chip, or a successfully added structured content item. -/
inductive Built : RichResponse → Prop
  | empty : Built AssistantApp.buildRichResponse
  | speech {rr : RichResponse} (speech : String) :
      Built rr → Built (rr.addSimpleResponse speech)
  | suggestion {rr : RichResponse} (suggestion : String) :
      Built rr → Built (rr.addSuggestions suggestion)
  | structured {rr rr2 : RichResponse} (field : String) (item : RichItem) :
      Built rr → rr.addStructuredItem field item = .ok rr2 → Built rr2

end RichResponse

/-- Modelled from the spec (§4.2): a response-producing call a handler makes
during its invocation (the "ask vs tell vs permission-request"
classification is owned by the dispatcher). -/
inductive ResponseCall where
  | tellCall (textToSpeech : String) : ResponseCall
  | askCall (inputPrompt : InputPrompt) (dialogState : Json) : ResponseCall
  | askForPermissionsCall (context : String) (permissions : List String)
      (dialogState : Json) : ResponseCall
deriving Repr

/-- Modelled from the spec (§4.2, §5): the result of a handler invocation —
an immediate (synchronous) completion, or a deferred computation that
eventually resolves once with success or rejection.  The payload is the
sequence of response-producing calls the handler issued. -/
inductive HandlerReturn where
  | sync (calls : List ResponseCall) : HandlerReturn
  | deferredResolved (calls : List ResponseCall) : HandlerReturn
  | deferredRejected : HandlerReturn
deriving Repr

/-- A developer-supplied handler: an identity (to observe which handler the
dispatcher invokes) and its behaviour on a turn. -/
structure Handler where
  id : Nat
  run : Turn → HandlerReturn

/-- Modelled from the spec (§4.2, §9 Design Notes): the handler source passed
to `handleRequest` — a single function receiving every turn, or a mapping
from intent id to function, optionally with a default/catch-all entry. -/
inductive HandlerSource where
  | single (h : Handler) : HandlerSource
  | routed (mapping : List (String × Handler)) (fallback : Option Handler) :
      HandlerSource

/-- Modelled from the spec (§4.4, §7): the terminal dispatcher states for one
turn. -/
inductive DispatchState where
  | FINAL (env : Envelope) : DispatchState
  | AWAITING_USER_INPUT (env : Envelope) : DispatchState
  | ERROR (kind : ErrorKind) : DispatchState
deriving Repr

/-- An observable event of one dispatch: a handler invocation, the single
resolution of a deferred handler result, the serialization of an envelope,
or an error transition. -/
inductive Event where
  | invoked (hid : Nat) : Event
  | resolved (ok : Bool) : Event
  | serialized (env : Envelope) : Event
  | errored (kind : ErrorKind) : Event
deriving Repr

/-- The handler identities invoked in a dispatch trace. -/
def invokedIds : List Event → List Nat
  | [] => []
  | .invoked hid :: rest => hid :: invokedIds rest
  | _ :: rest => invokedIds rest

/-- The envelopes serialized in a dispatch trace. -/
def serializedEnvs : List Event → List Envelope
  | [] => []
  | .serialized env :: rest => env :: serializedEnvs rest
  | _ :: rest => serializedEnvs rest

/-- The number of deferred resolutions (success or failure) in a dispatch
trace. -/
def resolutionCount : List Event → Nat
  | [] => 0
  | .resolved _ :: rest => resolutionCount rest + 1
  | _ :: rest => resolutionCount rest

namespace AssistantApp

/-- Modelled from the spec (§4.2): exact intent-id match in the mapping, with
the default/catch-all entry used when no key matches; a single-function
source receives every turn. -/
def selectHandler : HandlerSource → String → Option Handler
  | .single h, _ => some h
  | .routed mapping fallback, intentId => mapping.lookup intentId <|> fallback

/-- Modelled from the spec (§4.2): turns the single honored response call
into an envelope.  `tell` is FINAL; `ask` and the expected-intent requests
await user input; invalid builder input yields no envelope (see
`askForPermissions`). -/
def finalizeCall : ResponseCall → Option Envelope
  | .tellCall textToSpeech => some (ActionsSdkApp.tell textToSpeech)
  | .askCall inputPrompt dialogState =>
      some (ActionsSdkApp.ask inputPrompt dialogState)
  | .askForPermissionsCall context permissions dialogState =>
      askForPermissions context permissions dialogState

/-- Modelled from the spec (§4.2): finalization of a completed handler
invocation.  Only the last response-producing call before completion is
honored; a handler that produced no response, or whose response failed
validation, ends the turn in ERROR with no envelope serialized (spec §6:
500 for internal validation errors). -/
def finalizeCalls (calls : List ResponseCall) : DispatchState × List Event :=
  match calls.getLast? with
  | none => (.ERROR .HandlerFailed, [.errored .HandlerFailed])
  | some call =>
      match finalizeCall call with
      | none =>
          (.ERROR (.InvalidResponseShape "response"),
           [.errored (.InvalidResponseShape "response")])
      | some env =>
          (if env.expectUserResponse then .AWAITING_USER_INPUT env
           else .FINAL env,
           [.serialized env])

/-- `AssistantApp.handleRequest` (assistant-app.d.ts lines 282-337); the
implementation is not under `src/`.  Modelled from the spec (§4.2, §5): the
dispatcher selects the handler by exact intent-id match (ERROR
`UnhandledIntent` when no handler and no catch-all exists, with no envelope
serialized), invokes it, suspends on a deferred result until its single
resolution, propagates a rejection as ERROR `HandlerFailed` with no envelope
serialized, and otherwise finalizes and serializes exactly one envelope. -/
def handleRequest (source : HandlerSource) (t : Turn) :
    DispatchState × List Event :=
  match selectHandler source t.intentId with
  | none => (.ERROR .UnhandledIntent, [.errored .UnhandledIntent])
  | some h =>
      match h.run t with
      | .sync calls =>
          let (st, events) := finalizeCalls calls
          (st, .invoked h.id :: events)
      | .deferredResolved calls =>
          let (st, events) := finalizeCalls calls
          (st, .invoked h.id :: .resolved true :: events)
      | .deferredRejected =>
          (.ERROR .HandlerFailed,
           [.invoked h.id, .resolved false, .errored .HandlerFailed])

end AssistantApp

/-- A representative normalized turn used to instantiate universally
quantified theorems at concrete inputs. -/
def sampleTurn : Turn :=
  { intentId := StandardIntents.TEXT
    rawInput := some "bye"
    arguments := []
    dialogState := Json.obj []
    conversationId := some "cid123"
    apiVersion := .V2 }

/-- A concrete handler that ends the conversation with `tell("Goodbye!")`. -/
def goodbyeHandler : Handler :=
  { id := 7, run := fun _ => .sync [.tellCall "Goodbye!"] }

/-- A concrete handler whose deferred result resolves successfully with a
final `tell`. -/
def resolvingHandler : Handler :=
  { id := 3, run := fun _ => .deferredResolved [.tellCall "Goodbye!"] }

/-- A concrete handler whose deferred result is rejected. -/
def rejectingHandler : Handler :=
  { id := 4, run := fun _ => .deferredRejected }

lemma invokedIds_finalizeCalls (calls : List ResponseCall) :
    invokedIds (AssistantApp.finalizeCalls calls).2 = [] := by
  unfold AssistantApp.finalizeCalls
  split
  · rfl
  · split
    · rfl
    · rfl

lemma resolutionCount_finalizeCalls (calls : List ResponseCall) :
    resolutionCount (AssistantApp.finalizeCalls calls).2 = 0 := by
  unfold AssistantApp.finalizeCalls
  split
  · rfl
  · split
    · rfl
    · rfl

/-- **C1.** For every handler invocation that calls `tell(textToSpeech)` as
its honored response call, the resulting envelope is final: exactly one
envelope is serialized, the dispatcher ends in FINAL, the envelope has
`expectUserResponse = false`, a single terminal speech response equal to the
given text, no reprompts and no expected-intent request. -/
theorem tell_marks_turn_final (source : HandlerSource) (t : Turn)
    (h : Handler) (calls : List ResponseCall) (s : String)
    (hsel : AssistantApp.selectHandler source t.intentId = some h)
    (hrun : h.run t = .sync calls ∨ h.run t = .deferredResolved calls)
    (hlast : calls.getLast? = some (.tellCall s)) :
    serializedEnvs (AssistantApp.handleRequest source t).2 =
      [ActionsSdkApp.tell s] ∧
    (AssistantApp.handleRequest source t).1 = .FINAL (ActionsSdkApp.tell s) ∧
    (ActionsSdkApp.tell s).expectUserResponse = false ∧
    (ActionsSdkApp.tell s).finalSpeech = some s ∧
    (ActionsSdkApp.tell s).inputPrompt = none ∧
    (ActionsSdkApp.tell s).expectedIntent = none := by
  have hfin : AssistantApp.finalizeCalls calls =
      (.FINAL (ActionsSdkApp.tell s),
       [.serialized (ActionsSdkApp.tell s)]) := by
    unfold AssistantApp.finalizeCalls
    rw [hlast]
    rfl
  rcases hrun with hr | hr <;>
    simp [AssistantApp.handleRequest, hsel, hr, hfin, serializedEnvs,
      ActionsSdkApp.tell]

/-- Witness for C1: a handler invocation on a concrete turn calling
`tell("Goodbye!")`. -/
theorem tell_marks_turn_final_witness :
    serializedEnvs
      (AssistantApp.handleRequest (.single goodbyeHandler) sampleTurn).2 =
      [ActionsSdkApp.tell "Goodbye!"] ∧
    (AssistantApp.handleRequest (.single goodbyeHandler) sampleTurn).1 =
      .FINAL (ActionsSdkApp.tell "Goodbye!") ∧
    (ActionsSdkApp.tell "Goodbye!").expectUserResponse = false ∧
    (ActionsSdkApp.tell "Goodbye!").finalSpeech = some "Goodbye!" ∧
    (ActionsSdkApp.tell "Goodbye!").inputPrompt = none ∧
    (ActionsSdkApp.tell "Goodbye!").expectedIntent = none :=
  tell_marks_turn_final (.single goodbyeHandler) sampleTurn goodbyeHandler
    [.tellCall "Goodbye!"] "Goodbye!" rfl (Or.inl rfl) rfl

/-- **C2.** For every Turn whose intentId exactly matches a key registered in
the handler mapping passed to handleRequest, the dispatcher invokes exactly
the handler registered under that key and no other handler: the dispatch
trace contains a single invocation, of that handler. -/
theorem dispatch_invokes_exact_match (mapping : List (String × Handler))
    (fallback : Option Handler) (t : Turn) (h : Handler)
    (hlookup : mapping.lookup t.intentId = some h) :
    invokedIds
      (AssistantApp.handleRequest (.routed mapping fallback) t).2 = [h.id] := by
  have hsel : AssistantApp.selectHandler (.routed mapping fallback) t.intentId =
      some h := by
    simp [AssistantApp.selectHandler, hlookup]
  unfold AssistantApp.handleRequest
  rw [hsel]
  cases hr : h.run t with
  | sync calls =>
      simp [hr, invokedIds, invokedIds_finalizeCalls calls]
  | deferredResolved calls =>
      simp [hr, invokedIds, invokedIds_finalizeCalls calls]
  | deferredRejected =>
      simp [hr, invokedIds]

/-- Witness for C2: dispatching a TEXT turn through a mapping that registers
`goodbyeHandler` under the TEXT intent invokes exactly that handler. -/
theorem dispatch_invokes_exact_match_witness :
    invokedIds
      (AssistantApp.handleRequest
        (.routed [(StandardIntents.TEXT, goodbyeHandler)] none) sampleTurn).2 =
      [goodbyeHandler.id] :=
  dispatch_invokes_exact_match [(StandardIntents.TEXT, goodbyeHandler)] none
    sampleTurn goodbyeHandler rfl

/-- **C3.** For every Turn whose intentId is not registered in the handler
mapping, when no catch-all/default handler exists, the dispatcher reaches the
ERROR state with kind UnhandledIntent and no response envelope is serialized
for that turn. -/
theorem unhandled_intent_no_envelope (mapping : List (String × Handler))
    (t : Turn) (hlookup : mapping.lookup t.intentId = none) :
    (AssistantApp.handleRequest (.routed mapping none) t).1 =
      .ERROR .UnhandledIntent ∧
    serializedEnvs (AssistantApp.handleRequest (.routed mapping none) t).2 =
      [] := by
  have hsel : AssistantApp.selectHandler (.routed mapping none) t.intentId =
      none := by
    simp [AssistantApp.selectHandler, hlookup]
  unfold AssistantApp.handleRequest
  rw [hsel]
  exact ⟨rfl, rfl⟩

/-- Witness for C3: a turn with an unregistered intent against a mapping that
only registers the MAIN intent, with no catch-all. -/
theorem unhandled_intent_no_envelope_witness :
    (AssistantApp.handleRequest
      (.routed [(StandardIntents.MAIN, goodbyeHandler)] none) sampleTurn).1 =
      .ERROR .UnhandledIntent ∧
    serializedEnvs
      (AssistantApp.handleRequest
        (.routed [(StandardIntents.MAIN, goodbyeHandler)] none) sampleTurn).2 =
      [] :=
  unhandled_intent_no_envelope [(StandardIntents.MAIN, goodbyeHandler)]
    sampleTurn rfl

lemma serialize_getField_dialogState (env : Envelope) (v : ApiVersion) :
    (EnvelopeSerializer.serialize env v).getField (dialogStateField v) =
      some env.dialogState := by
  simp [EnvelopeSerializer.serialize, Json.getField, List.lookup]

lemma normalize_ok_fields (body : Json) (v : ApiVersion) (turn : Turn)
    (hn : RequestNormalizer.normalize body v = .ok turn) :
    turn.intentId =
      ((body.getField "intent").bind Json.asString).getD unknownIntent ∧
    turn.rawInput = (body.getField (rawInputField v)).bind Json.asString ∧
    turn.arguments = parseArguments (body.getField "arguments") ∧
    turn.dialogState =
      (body.getField (dialogStateField v)).getD (Json.obj []) ∧
    turn.conversationId =
      (body.getField (conversationIdField v)).bind Json.asString := by
  simp only [RequestNormalizer.normalize] at hn
  split at hn
  · simp at hn
  · injection hn with hn
    subst hn
    exact ⟨rfl, rfl, rfl, rfl, rfl⟩

/-- **C4.** For any opaque JSON dialog-state value in the request body and
either supported API version, normalizing the request and serializing the
resulting envelope (the envelope carrying the dialog state of the normalized
turn) under the same version reproduces the DialogState blob unchanged in
the version-specific conversation-token field — as a JSON value and
byte-for-byte under rendering. -/
theorem dialogState_roundtrip (body : Json) (v : ApiVersion) (turn : Turn)
    (env : Envelope) (d : Json)
    (hn : RequestNormalizer.normalize body v = .ok turn)
    (hd : body.getField (dialogStateField v) = some d)
    (henv : env.dialogState = turn.dialogState) :
    (EnvelopeSerializer.serialize env v).getField (dialogStateField v) =
      some d ∧
    ((EnvelopeSerializer.serialize env v).getField (dialogStateField v)).map
        Json.render = some (Json.render d) := by
  have hfields := normalize_ok_fields body v turn hn
  have hds : turn.dialogState = d := by
    rw [hfields.2.2.2.1, hd]
    rfl
  have hser := serialize_getField_dialogState env v
  rw [henv, hds] at hser
  exact ⟨hser, by rw [hser]; rfl⟩

/-- A concrete V2 request body with an opaque dialog-state token. -/
def sampleBody : Json :=
  Json.obj [("conversationId", .str "cid123"),
            ("intent", .str StandardIntents.TEXT),
            ("conversationToken", .str "state42")]

/-- The turn obtained by normalizing `sampleBody` under V2. -/
def sampleBodyTurn : Turn :=
  { intentId := StandardIntents.TEXT
    rawInput := none
    arguments := []
    dialogState := .str "state42"
    conversationId := some "cid123"
    apiVersion := .V2 }

/-- Witness for C4: a concrete V2 body whose dialog-state token survives a
normalize-then-serialize round trip, byte-for-byte. -/
theorem dialogState_roundtrip_witness :
    (EnvelopeSerializer.serialize
      (ActionsSdkApp.ask ⟨false, "Say a number", []⟩ (Json.str "state42"))
      .V2).getField (dialogStateField .V2) = some (Json.str "state42") ∧
    ((EnvelopeSerializer.serialize
      (ActionsSdkApp.ask ⟨false, "Say a number", []⟩ (Json.str "state42"))
      .V2).getField (dialogStateField .V2)).map Json.render =
      some (Json.render (Json.str "state42")) :=
  dialogState_roundtrip sampleBody .V2 sampleBodyTurn
    (ActionsSdkApp.ask ⟨false, "Say a number", []⟩ (Json.str "state42"))
    (Json.str "state42") rfl rfl rfl

/-- **C5.** Every call to buildInputPrompt with a noInputs array of length 4
or more raises InvalidResponseShape (a construction-time validation error)
and the array is never silently truncated; for arrays of length 0 to 3 no
error is raised and the prompt is built from the inputs unchanged. -/
theorem buildInputPrompt_caps_noInputs (isSsml : Bool) (initialPrompt : String)
    (noInputs : List String) :
    (noInputs.length ≥ 4 →
      ActionsSdkApp.buildInputPrompt isSsml initialPrompt noInputs =
        .error (.InvalidResponseShape "noInputs")) ∧
    (noInputs.length ≤ 3 →
      ActionsSdkApp.buildInputPrompt isSsml initialPrompt noInputs =
        .ok ⟨isSsml, initialPrompt, noInputs⟩) := by
  constructor
  · intro h
    simp [ActionsSdkApp.buildInputPrompt, h]
  · intro h
    have h4 : ¬ noInputs.length ≥ 4 := by omega
    simp [ActionsSdkApp.buildInputPrompt, h4]

/-- Witness for C5: four no-input prompts are rejected, two are accepted. -/
theorem buildInputPrompt_caps_noInputs_witness :
    ActionsSdkApp.buildInputPrompt false "Say a number"
      ["a", "b", "c", "d"] = .error (.InvalidResponseShape "noInputs") ∧
    ActionsSdkApp.buildInputPrompt false "Say a number"
      ["Say any number", "Pick a number"] =
      .ok ⟨false, "Say a number", ["Say any number", "Pick a number"]⟩ :=
  ⟨(buildInputPrompt_caps_noInputs false "Say a number"
      ["a", "b", "c", "d"]).1 (by decide),
   (buildInputPrompt_caps_noInputs false "Say a number"
      ["Say any number", "Pick a number"]).2 (by decide)⟩

lemma built_structuredCount_le_one (rr : RichResponse)
    (hb : RichResponse.Built rr) : rr.structuredCount ≤ 1 := by
  induction hb with
  | empty => decide
  | speech speech hb ih =>
      simpa [RichResponse.addSimpleResponse, RichResponse.structuredCount,
        List.countP_append, RichItem.isStructured] using ih
  | suggestion suggestion hb ih =>
      simpa [RichResponse.addSuggestions, RichResponse.structuredCount]
        using ih
  | structured field item hb heq ih =>
      rename_i rr1 rr2
      simp only [RichResponse.addStructuredItem] at heq
      split at heq
      · simp at heq
      · injection heq with heq
        subst heq
        rename_i hlt
        simp only [RichResponse.structuredCount, List.countP_append] at hlt ⊢
        have hone : List.countP (fun i => i.isStructured) [item] ≤ 1 := by
          cases item <;> simp [List.countP_singleton, RichItem.isStructured]
        omega

/-- **C7.** Every RichResponse reachable through the builder contains at most
one structured content item (basic card, list, or carousel); attempting to
add a second structured content item (a basic card, a list, or a carousel)
raises InvalidResponseShape rather than silently dropping data. -/
theorem richResponse_at_most_one_structured :
    (∀ (rr : RichResponse) (card : BasicCard), 1 ≤ rr.structuredCount →
      rr.addBasicCard card = .error (.InvalidResponseShape "basicCard")) ∧
    (∀ (rr : RichResponse) (list : SelectionList), 1 ≤ rr.structuredCount →
      rr.addListSelect list = .error (.InvalidResponseShape "listSelect")) ∧
    (∀ (rr : RichResponse) (carousel : Carousel), 1 ≤ rr.structuredCount →
      rr.addCarouselSelect carousel =
        .error (.InvalidResponseShape "carouselSelect")) ∧
    (∀ rr : RichResponse, RichResponse.Built rr → rr.structuredCount ≤ 1) := by
  refine ⟨?_, ?_, ?_, built_structuredCount_le_one⟩ <;>
    intro rr x h <;>
    simp [RichResponse.addBasicCard, RichResponse.addListSelect,
      RichResponse.addCarouselSelect, RichResponse.addStructuredItem, h]

/-- Witness for C7: adding a basic card to a rich response already holding
one is rejected, and a concrete built rich response has at most one
structured item. -/
theorem richResponse_at_most_one_structured_witness :
    RichResponse.addBasicCard ⟨[.basicCard ⟨"first"⟩], []⟩ ⟨"second"⟩ =
      .error (.InvalidResponseShape "basicCard") ∧
    RichResponse.addListSelect ⟨[.basicCard ⟨"first"⟩], []⟩ ⟨"title", []⟩ =
      .error (.InvalidResponseShape "listSelect") ∧
    RichResponse.addCarouselSelect ⟨[.basicCard ⟨"first"⟩], []⟩ ⟨[]⟩ =
      .error (.InvalidResponseShape "carouselSelect") ∧
    RichResponse.structuredCount AssistantApp.buildRichResponse ≤ 1 :=
  ⟨richResponse_at_most_one_structured.1 ⟨[.basicCard ⟨"first"⟩], []⟩
      ⟨"second"⟩ (by decide),
   richResponse_at_most_one_structured.2.1 ⟨[.basicCard ⟨"first"⟩], []⟩
      ⟨"title", []⟩ (by decide),
   richResponse_at_most_one_structured.2.2.1 ⟨[.basicCard ⟨"first"⟩], []⟩
      ⟨[]⟩ (by decide),
   richResponse_at_most_one_structured.2.2.2 AssistantApp.buildRichResponse
      RichResponse.Built.empty⟩

/-- **C8 counterexample.** The claim states that askForPermissions, given
invalid input, raises InvalidResponseShape and never returns null in place
of a response.  At the concrete invalid input of an empty permissions array,
the operation — whose declared contract in assistant-app.d.ts states "for
any invalid input, we return null" — returns null (none), and raises
nothing; the claim as stated is false at this input. -/
theorem askForPermissions_returns_null_counterexample :
    AssistantApp.askForPermissions "To pick you up" [] Json.null = none := by
  rfl

/-- **C8 (amended).** For askForPermission and askForPermissions given
invalid input (an empty context, an empty permissions array, or an
unsupported permission name), the operation returns null in place of a
response rather than raising InvalidResponseShape; for valid input it
produces a non-final permission-request envelope. -/
theorem askForPermissions_null_on_invalid (context : String)
    (permissions : List String) (dialogState : Json) :
    ((context = "" ∨ permissions = [] ∨
        permissions.all isSupportedPermission = false) →
      AssistantApp.askForPermissions context permissions dialogState =
        none) ∧
    (context ≠ "" → permissions ≠ [] →
      permissions.all isSupportedPermission = true →
      AssistantApp.askForPermissions context permissions dialogState =
        some { expectUserResponse := true
               finalSpeech := none
               inputPrompt := some ⟨false, context, []⟩
               expectedIntent := some (.permission context permissions)
               dialogState := dialogState }) ∧
    (∀ permission : String,
      AssistantApp.askForPermission context permission dialogState =
        AssistantApp.askForPermissions context [permission] dialogState) := by
  refine ⟨?_, ?_, fun permission => rfl⟩
  · rintro (h | h | h) <;>
      simp [AssistantApp.askForPermissions, h]
  · intro hc hp hall
    simp [AssistantApp.askForPermissions, hc, hp, hall]

/-- Witness for the amended C8: an empty permissions array yields null, and
a valid NAME request yields a permission-request envelope. -/
theorem askForPermissions_null_on_invalid_witness :
    AssistantApp.askForPermissions "" [SupportedPermissions.NAME] Json.null =
      none ∧
    AssistantApp.askForPermissions "To pick you up"
      [SupportedPermissions.NAME] Json.null =
      some { expectUserResponse := true
             finalSpeech := none
             inputPrompt := some ⟨false, "To pick you up", []⟩
             expectedIntent :=
               some (.permission "To pick you up" [SupportedPermissions.NAME])
             dialogState := Json.null } ∧
    AssistantApp.askForPermission "To pick you up" SupportedPermissions.NAME
      Json.null =
      AssistantApp.askForPermissions "To pick you up"
        [SupportedPermissions.NAME] Json.null :=
  ⟨(askForPermissions_null_on_invalid "" [SupportedPermissions.NAME]
      Json.null).1 (Or.inl rfl),
   (askForPermissions_null_on_invalid "To pick you up"
      [SupportedPermissions.NAME] Json.null).2.1 (by decide) (by decide)
      (by decide),
   (askForPermissions_null_on_invalid "To pick you up"
      [SupportedPermissions.NAME] Json.null).2.2 SupportedPermissions.NAME⟩

/-- **C9.** For every request body that contains a minimally valid envelope
(a conversation id or an intent), normalization succeeds rather than
failing; and missing fields in the normalized Turn resolve to null/empty
defaults: the raw-input, conversation-id and argument accessors return null
when the corresponding value is absent from the body. -/
theorem normalize_null_defaults (body : Json) (v : ApiVersion) :
    (((body.getField (conversationIdField v)).bind Json.asString ≠ none ∨
      (body.getField "intent").bind Json.asString ≠ none) →
      ∃ turn, RequestNormalizer.normalize body v = .ok turn) ∧
    (∀ turn, RequestNormalizer.normalize body v = .ok turn →
      (body.getField (rawInputField v) = none →
        ActionsSdkApp.getRawInput turn = none) ∧
      (body.getField (conversationIdField v) = none →
        ActionsSdkApp.getConversationId turn = none) ∧
      (body.getField "arguments" = none →
        ∀ name, ActionsSdkApp.getArgument turn name = none)) := by
  constructor
  · intro hvalid
    simp only [RequestNormalizer.normalize]
    split
    · rename_i hc
      rcases hvalid with h | h
      · exact absurd hc.1 h
      · exact absurd hc.2 h
    · exact ⟨_, rfl⟩
  · intro turn hn
    have hfields := normalize_ok_fields body v turn hn
    refine ⟨?_, ?_, ?_⟩
    · intro habs
      rw [ActionsSdkApp.getRawInput, hfields.2.1, habs]
      rfl
    · intro habs
      rw [ActionsSdkApp.getConversationId, hfields.2.2.2.2, habs]
      rfl
    · intro habs name
      rw [ActionsSdkApp.getArgument, hfields.2.2.1, habs]
      rfl

/-- The turn obtained by normalizing a body carrying only an intent. -/
def minimalTurn : Turn :=
  { intentId := StandardIntents.TEXT
    rawInput := none
    arguments := []
    dialogState := Json.obj []
    conversationId := none
    apiVersion := .V2 }

/-- Witness for C9: a body carrying only an intent normalizes successfully,
and the raw-input, conversation-id and argument accessors all return null on
the resulting turn. -/
theorem normalize_null_defaults_witness :
    (∃ turn, RequestNormalizer.normalize
      (Json.obj [("intent", Json.str StandardIntents.TEXT)]) .V2 =
        .ok turn) ∧
    ActionsSdkApp.getRawInput minimalTurn = none ∧
    ActionsSdkApp.getConversationId minimalTurn = none ∧
    ActionsSdkApp.getArgument minimalTurn "color" = none :=
  ⟨(normalize_null_defaults
      (Json.obj [("intent", Json.str StandardIntents.TEXT)]) .V2).1
      (Or.inr (by decide)),
   ((normalize_null_defaults
      (Json.obj [("intent", Json.str StandardIntents.TEXT)]) .V2).2
      minimalTurn rfl).1 rfl,
   ((normalize_null_defaults
      (Json.obj [("intent", Json.str StandardIntents.TEXT)]) .V2).2
      minimalTurn rfl).2.1 rfl,
   ((normalize_null_defaults
      (Json.obj [("intent", Json.str StandardIntents.TEXT)]) .V2).2
      minimalTurn rfl).2.2 rfl "color"⟩

/-- **C10.** getSelectedOption returns null rather than raising when the
current intent is not the OPTION intent or when no option was selected, and
returns the option key of the selected item exactly when the current intent
is the OPTION intent and a selection argument is present. -/
theorem getSelectedOption_contract (t : Turn) :
    (t.intentId ≠ StandardIntents.OPTION →
      ActionsSdkApp.getSelectedOption t = none) ∧
    (ActionsSdkApp.getArgument t BuiltInArgNames.OPTION = none →
      ActionsSdkApp.getSelectedOption t = none) ∧
    (∀ key : String, t.intentId = StandardIntents.OPTION →
      ActionsSdkApp.getArgument t BuiltInArgNames.OPTION =
        some (.str key) →
      ActionsSdkApp.getSelectedOption t = some key) := by
  refine ⟨?_, ?_, ?_⟩
  · intro h
    simp [ActionsSdkApp.getSelectedOption, h]
  · intro h
    by_cases hi : t.intentId = StandardIntents.OPTION
    · simp [ActionsSdkApp.getSelectedOption, hi, h]
    · simp [ActionsSdkApp.getSelectedOption, hi]
  · intro key hi harg
    simp [ActionsSdkApp.getSelectedOption, hi, harg]

/-- A turn whose OPTION intent carries a selected option key. -/
def optionTurn : Turn :=
  { intentId := StandardIntents.OPTION
    rawInput := none
    arguments := [(BuiltInArgNames.OPTION, .str "first_choice")]
    dialogState := Json.obj []
    conversationId := some "cid123"
    apiVersion := .V2 }

/-- Witness for C10: a non-OPTION turn yields null, a turn without a
selection argument yields null, and an OPTION turn with a selection argument
yields the option key. -/
theorem getSelectedOption_contract_witness :
    ActionsSdkApp.getSelectedOption sampleTurn = none ∧
    ActionsSdkApp.getSelectedOption minimalTurn = none ∧
    ActionsSdkApp.getSelectedOption optionTurn = some "first_choice" :=
  ⟨(getSelectedOption_contract sampleTurn).1 (by decide),
   (getSelectedOption_contract minimalTurn).2.1 rfl,
   (getSelectedOption_contract optionTurn).2.2 "first_choice" rfl rfl⟩

/-- **C6.** When a handler returns a deferred result, the dispatcher does
not serialize any envelope until exactly one resolution of that deferred
value has occurred: a rejection transitions the turn to ERROR with kind
HandlerFailed with no envelope serialized, and on success the dispatch trace
contains exactly one resolution event, with every serialization occurring
strictly after a resolution event. -/
theorem deferred_single_resolution (source : HandlerSource) (t : Turn)
    (h : Handler)
    (hsel : AssistantApp.selectHandler source t.intentId = some h) :
    (h.run t = .deferredRejected →
      (AssistantApp.handleRequest source t).1 = .ERROR .HandlerFailed ∧
      serializedEnvs (AssistantApp.handleRequest source t).2 = []) ∧
    (∀ calls : List ResponseCall, h.run t = .deferredResolved calls →
      resolutionCount (AssistantApp.handleRequest source t).2 = 1 ∧
      ∀ (i : Nat) (env : Envelope),
        (AssistantApp.handleRequest source t).2.get? i =
          some (.serialized env) →
        ∃ j, j < i ∧ ∃ ok,
          (AssistantApp.handleRequest source t).2.get? j =
            some (.resolved ok)) := by
  constructor
  · intro hr
    unfold AssistantApp.handleRequest
    rw [hsel]
    simp [hr, serializedEnvs]
  · intro calls hr
    have htr : (AssistantApp.handleRequest source t).2 =
        .invoked h.id :: .resolved true ::
          (AssistantApp.finalizeCalls calls).2 := by
      unfold AssistantApp.handleRequest
      rw [hsel]
      simp [hr]
    rw [htr]
    constructor
    · simp [resolutionCount, resolutionCount_finalizeCalls calls]
    · intro i env hi
      rcases i with _ | _ | n
      · simp [List.get?] at hi
      · simp [List.get?] at hi
      · exact ⟨1, by omega, true, rfl⟩

/-- Witness for C6: a rejected deferred handler ends in ERROR HandlerFailed
with nothing serialized, and a successfully resolved deferred handler yields
exactly one resolution, with serialization only after it. -/
theorem deferred_single_resolution_witness :
    ((AssistantApp.handleRequest (.single rejectingHandler) sampleTurn).1 =
      .ERROR .HandlerFailed ∧
     serializedEnvs
       (AssistantApp.handleRequest (.single rejectingHandler)
         sampleTurn).2 = []) ∧
    (resolutionCount
      (AssistantApp.handleRequest (.single resolvingHandler)
        sampleTurn).2 = 1 ∧
     ∀ (i : Nat) (env : Envelope),
       (AssistantApp.handleRequest (.single resolvingHandler)
         sampleTurn).2.get? i = some (.serialized env) →
       ∃ j, j < i ∧ ∃ ok,
         (AssistantApp.handleRequest (.single resolvingHandler)
           sampleTurn).2.get? j = some (.resolved ok)) :=
  ⟨(deferred_single_resolution (.single rejectingHandler) sampleTurn
      rejectingHandler rfl).1 rfl,
   (deferred_single_resolution (.single resolvingHandler) sampleTurn
      resolvingHandler rfl).2 [.tellCall "Goodbye!"] rfl⟩
